import Mathlib

/-!
Verification of the SAML 2.0 service-provider core of the `ucsc-portal`
repository: configuration loading (`getSAMLConfig`, `createSAMLStrategy`),
authentication-request URL generation (`generateAuthUrl`), response
validation (`validateSAMLResponse`, `processSAMLCallback`), profile
normalization (`parseSAMLProfile`, `createSAMLUser`) and role mapping
(`mapAffiliationToRoles`).

The TypeScript sources are embedded shallowly: JavaScript strings become
`String`, `string | string[] | undefined` union values become an explicit
inductive, attribute bags become `String → Option String`, the behaviour of
the third-party `@node-saml/passport-saml` library at its validation call
site is an explicit oracle parameter, the v5 `new SAML` constructor check
that rejects an empty `idpCert` is modelled explicitly (it runs outside the
try/catch of `validateSAMLResponse`, so its throw escapes, which the
`Except` result type makes visible), and the truthiness semantics of `||`
on strings (empty string is falsy) is the function `jsOr`.
-/

namespace UcscPortal

/-- Application roles, from `auth.types.ts`:
`type Role = 'student' | 'instructor' | 'admin' | 'staff'`. -/
inductive Role
  | student
  | instructor
  | admin
  | staff
deriving DecidableEq, Repr

/-- JavaScript `a || b` on strings: the empty string is falsy. -/
def jsOr (a b : String) : String :=
  if a = "" then b else a

/-- A JavaScript `string | string[] | undefined` value, as received for the
`eduPersonAffiliation` attribute. -/
inductive StrOrList
  | absent
  | str (s : String)
  | list (l : List String)
deriving DecidableEq, Repr

/-- JavaScript falsiness of a `string | string[] | undefined` value:
`undefined` and `""` are falsy; every array (even `[]`) is truthy. -/
def StrOrList.isFalsy : StrOrList → Bool
  | .absent => true
  | .str s => s = ""
  | .list _ => false

/-- JavaScript `a || b` on `string | string[] | undefined` values. -/
def jsOrT (a b : StrOrList) : StrOrList :=
  if a.isFalsy then b else a

/-- `needle.isPrefixOf`-based scan implementing JavaScript
`haystack.includes(needle)` on lists of characters. -/
def listContainsSub (pat : List Char) : List Char → Bool
  | [] => pat.isPrefixOf []
  | c :: rest => pat.isPrefixOf (c :: rest) || listContainsSub pat rest

/-- JavaScript `s.includes(pat)`: substring containment. -/
def strContainsSub (s pat : String) : Bool :=
  listContainsSub pat.toList s.toList

/-- ASCII lowering of one character, as JavaScript `toLowerCase` acts on the
ASCII range (the only range the role keywords live in). -/
def lowerChar (c : Char) : Char :=
  if 'A' ≤ c && c ≤ 'Z' then Char.ofNat (c.toNat + 32) else c

/-- JavaScript `s.toLowerCase()` restricted to its ASCII action. -/
def toLowerStr (s : String) : String :=
  String.mk (s.toList.map lowerChar)

/-- Accumulator pass of `dedupFirst`: keep an element only when it has not
been seen before. -/
def dedupFirstAux (seen : List Role) : List Role → List Role
  | [] => []
  | r :: rest =>
    if r ∈ seen then dedupFirstAux seen rest
    else r :: dedupFirstAux (r :: seen) rest

/-- `[...new Set(roles)]`: de-duplication keeping the first occurrence of
each element, in insertion order. -/
def dedupFirst (l : List Role) : List Role :=
  dedupFirstAux [] l

/-- The body of the `for` loop of `mapAffiliationToRoles`
(`saml.types.ts`, lines 181–193): each affiliation string is lowercased and
the first matching branch of the `if`/`else if` chain pushes one role. -/
def collectRoles : List String → List Role
  | [] => []
  | a :: rest =>
    let normalized := toLowerStr a
    (if strContainsSub normalized "faculty" || strContainsSub normalized "instructor" then
       [Role.instructor]
     else if strContainsSub normalized "staff" then
       [Role.staff]
     else if strContainsSub normalized "admin" || strContainsSub normalized "administrator" then
       [Role.admin]
     else if strContainsSub normalized "student" then
       [Role.student]
     else []) ++ collectRoles rest

/-- `mapAffiliationToRoles` from `saml.types.ts` (lines 171–202):
falsy input (`undefined` or `""`) returns `['student']`; otherwise the input
is coerced to a list, scanned by the `for` loop, defaulted to `['student']`
when no role was pushed, and de-duplicated via `new Set`. -/
def mapAffiliationToRoles (affiliations : StrOrList) : List Role :=
  if affiliations.isFalsy then [Role.student]
  else
    let affiliationList :=
      match affiliations with
      | .absent => []
      | .str s => [s]
      | .list l => l
    let roles := collectRoles affiliationList
    let roles := if roles = [] then [Role.student] else roles
    dedupFirst roles

/-- The spec's reference role for a single affiliation string
(spec §4.5): case-insensitively, `faculty`/`instructor` → instructor, else
`staff` → staff, else `admin`/`administrator` → admin, else `student` →
student, else nothing. -/
def specRoleForAff (a : String) : Option Role :=
  let low := toLowerStr a
  if strContainsSub low "faculty" || strContainsSub low "instructor" then some Role.instructor
  else if strContainsSub low "staff" then some Role.staff
  else if strContainsSub low "admin" || strContainsSub low "administrator" then some Role.admin
  else if strContainsSub low "student" then some Role.student
  else none

/-- The spec's reference role mapper (spec §4.5): scan each affiliation
through the branch chain, default to `{student}` when the scan is empty,
and de-duplicate keeping insertion order. -/
def mapAffiliationsToRolesSpec (affs : List String) : List Role :=
  let scanned := affs.filterMap specRoleForAff
  dedupFirst (if scanned = [] then [Role.student] else scanned)

/-- Coercion of a `string | string[] | undefined` affiliation value to the
list of affiliation strings it denotes. -/
def StrOrList.toAffList : StrOrList → List String
  | .absent => []
  | .str s => [s]
  | .list l => l

/-- The raw profile object resolved by the SAML library: `nameID`,
`nameIDFormat`, `sessionIndex`, an open attribute bag of string-valued
attributes, and the two affiliation attributes, which may hold a string or a
string list (`saml.service.ts`, lines 140–188 read exactly these keys). -/
structure RawProfile where
  nameID : String
  nameIDFormat : Option String := none
  sessionIndex : Option String := none
  attrs : String → Option String := fun _ => none
  eduPersonAffiliation : StrOrList := .absent
  eduPersonAffiliationOid : StrOrList := .absent

/-- Reading a string attribute from the raw bag: an absent attribute behaves
as the falsy `undefined`, which the `||` chains treat exactly like `""`. -/
def attrStr (raw : RawProfile) (k : String) : String :=
  (raw.attrs k).getD ""

/-- `SAMLProfile` from `saml.types.ts` (fields used by the service). -/
structure SAMLProfile where
  nameID : String
  nameIDFormat : Option String
  sessionIndex : Option String
  email : String
  displayName : String
  firstName : String
  lastName : String
  uid : String
  eduPersonAffiliation : StrOrList

/-- `parseSAMLProfile` from `saml.service.ts` (lines 140–188): each field is
an `||` chain over the raw attribute bag, in the source's key order. -/
def parseSAMLProfile (raw : RawProfile) : SAMLProfile :=
  { nameID := raw.nameID
    nameIDFormat := raw.nameIDFormat
    sessionIndex := raw.sessionIndex
    email :=
      jsOr (attrStr raw "email")
        (jsOr (attrStr raw "urn:oid:0.9.2342.19200300.100.1.3") (attrStr raw "mail"))
    displayName :=
      jsOr (attrStr raw "displayName")
        (jsOr (attrStr raw "urn:oid:2.16.840.1.113730.3.1.241") (attrStr raw "cn"))
    firstName :=
      jsOr (attrStr raw "firstName")
        (jsOr (attrStr raw "givenName") (attrStr raw "urn:oid:2.5.4.42"))
    lastName :=
      jsOr (attrStr raw "lastName")
        (jsOr (attrStr raw "sn") (attrStr raw "urn:oid:2.5.4.4"))
    uid :=
      jsOr (attrStr raw "uid") (attrStr raw "urn:oid:0.9.2342.19200300.100.1.1")
    eduPersonAffiliation :=
      jsOrT raw.eduPersonAffiliation raw.eduPersonAffiliationOid }

/-- `SAMLUser` from `saml.types.ts`. -/
structure SAMLUser where
  id : String
  email : String
  name : String
  roles : List Role
  samlProfile : SAMLProfile
  sessionIndex : Option String

/-- `[profile.firstName, profile.lastName].filter(Boolean).join(' ')`. -/
def joinNames (firstName lastName : String) : String :=
  String.intercalate " " (([firstName, lastName]).filter (fun s => s ≠ ""))

/-- Characters before the first `@` of a character list. -/
def takeUntilAt : List Char → List Char
  | [] => []
  | c :: rest => if c = '@' then [] else c :: takeUntilAt rest

/-- `email.split('@')[0]`: the part of `email` before the first `@`
(the whole string when there is no `@`, the empty string for `""`). -/
def localPart (email : String) : String :=
  String.mk (takeUntilAt email.toList)

/-- `createSAMLUser` from `saml.service.ts` (lines 193–209). -/
def createSAMLUser (profile : SAMLProfile) : SAMLUser :=
  let name :=
    jsOr profile.displayName
      (jsOr (joinNames profile.firstName profile.lastName)
        (jsOr (localPart profile.email) profile.nameID))
  { id := jsOr profile.uid profile.nameID
    email := jsOr profile.email (profile.nameID ++ "@ucsc.edu")
    name := name
    roles := mapAffiliationToRoles profile.eduPersonAffiliation
    samlProfile := profile
    sessionIndex := profile.sessionIndex }

/-- `SAMLErrorCode` from `saml.types.ts`. -/
inductive SAMLErrorCode
  | SAML_CONFIG_ERROR
  | SAML_RESPONSE_INVALID
  | SAML_SIGNATURE_INVALID
  | SAML_ASSERTION_EXPIRED
  | SAML_AUDIENCE_MISMATCH
  | SAML_MISSING_ATTRIBUTES
  | SAML_IDP_ERROR
  | SAML_NETWORK_ERROR
deriving DecidableEq, Repr

/-- `SAMLAuthResult` from `saml.types.ts`: success flag with optional user,
error message and error code. -/
structure SAMLAuthResult where
  success : Bool
  user : Option SAMLUser := none
  error : Option String := none
  errorCode : Option SAMLErrorCode := none

/-- The process environment variables read by the service. -/
structure Env where
  SAML_ENTRY_POINT : Option String := none
  SAML_ISSUER : Option String := none
  SAML_CALLBACK_URL : Option String := none
  SAML_IDP_CERT : Option String := none
  NODE_ENV : Option String := none

/-- `process.env.X || fallback`: an unset or empty variable is falsy. -/
def envOr (v : Option String) (fallback : String) : String :=
  jsOr (v.getD "") fallback

/-- `SAMLConfig` from `saml.types.ts` (the fields the service populates). -/
structure SAMLConfig where
  entryPoint : String
  issuer : String
  callbackUrl : String
  cert : String
  wantAssertionsSigned : Bool
  wantAuthnResponseSigned : Bool

/-- `DEFAULT_CONFIG` from `saml.service.ts` (lines 28–35). -/
def DEFAULT_CONFIG : SAMLConfig :=
  { entryPoint := "http://localhost:8080/simplesaml/saml2/idp/SSOService.php"
    issuer := "http://localhost:3000"
    callbackUrl := "http://localhost:3000/api/auth/saml/callback"
    cert := ""
    wantAssertionsSigned := false
    wantAuthnResponseSigned := false }

/-- `getSAMLConfig` from `saml.service.ts` (lines 40–49): every field falls
back to `DEFAULT_CONFIG`; the enforcement flags are exactly
`NODE_ENV === 'production'`. -/
def getSAMLConfig (env : Env) : SAMLConfig :=
  { entryPoint := envOr env.SAML_ENTRY_POINT DEFAULT_CONFIG.entryPoint
    issuer := envOr env.SAML_ISSUER DEFAULT_CONFIG.issuer
    callbackUrl := envOr env.SAML_CALLBACK_URL DEFAULT_CONFIG.callbackUrl
    cert := envOr env.SAML_IDP_CERT DEFAULT_CONFIG.cert
    wantAssertionsSigned := env.NODE_ENV = some "production"
    wantAuthnResponseSigned := env.NODE_ENV = some "production" }

/-- The characters removed by the regex `[\r\n\s]` of `saml.service.ts`
line 62 (JavaScript `\s` whitespace, ASCII range plus no-break space). -/
def isJsSpace (c : Char) : Bool :=
  c = ' ' || c = '\t' || c = '\n' || c = '\r' ||
  c = Char.ofNat 11 || c = Char.ofNat 12 || c = Char.ofNat 160

/-- `.replace(/[\r\n\s]/g, '')`: drop every whitespace character. -/
def stripJsSpace (s : String) : String :=
  String.mk (s.toList.filter (fun c => !isJsSpace c))

def beginMarker : String := "-----BEGIN CERTIFICATE-----"

def endMarker : String := "-----END CERTIFICATE-----"

/-- Global, non-overlapping, left-to-right replacement on character lists,
with a fuel argument for structural recursion; the fuel is instantiated
with the list length, which bounds the number of steps, so the `0` case is
never reached on a non-empty list. -/
def replaceAllFuel (pat rep : List Char) : Nat → List Char → List Char
  | _, [] => []
  | 0, l => l
  | fuel + 1, c :: rest =>
    if pat.isPrefixOf (c :: rest) then
      rep ++ replaceAllFuel pat rep fuel (List.drop (pat.length - 1) rest)
    else
      c :: replaceAllFuel pat rep fuel rest

/-- JavaScript `s.replace(/pat/g, rep)` for a literal pattern: every
non-overlapping occurrence is replaced, scanning left to right. -/
def replaceAll (s pat rep : String) : String :=
  if pat = "" then s
  else String.mk (replaceAllFuel pat.toList rep.toList s.toList.length s.toList)

/-- The certificate normalization of `createSAMLStrategy`
(`saml.service.ts`, lines 59–62): strip the PEM armor markers, then all
whitespace. -/
def normalizeCert (cert : String) : String :=
  stripJsSpace (replaceAll (replaceAll cert beginMarker "") endMarker "")

/-- The options record handed to the `new SAML(...)` constructor
(`saml.service.ts`, lines 64–74). -/
structure SAMLStrategyOptions where
  entryPoint : String
  issuer : String
  callbackUrl : String
  idpCert : String
  wantAssertionsSigned : Bool
  wantAuthnResponseSigned : Bool
  validateInResponseToNever : Bool
  disableRequestedAuthnContext : Bool

/-- `createSAMLStrategy` from `saml.service.ts` (lines 54–75), at its two
call sites (no override argument is ever passed): resolve the environment
config, normalize the certificate, and build the strategy options. -/
def createSAMLStrategy (env : Env) : SAMLStrategyOptions :=
  let samlConfig := getSAMLConfig env
  let cert := normalizeCert samlConfig.cert
  { entryPoint := samlConfig.entryPoint
    issuer := samlConfig.issuer
    callbackUrl := samlConfig.callbackUrl
    idpCert := cert
    wantAssertionsSigned := samlConfig.wantAssertionsSigned
    wantAuthnResponseSigned := samlConfig.wantAuthnResponseSigned
    validateInResponseToNever := true
    disableRequestedAuthnContext := true }

/-- The required-option check of the third-party `new SAML(options)`
constructor invoked by `createSAMLStrategy` (passport-saml v5,
`assertRequired(options.idpCert, "idpCert is required")`): a missing or
empty `idpCert` makes the constructor throw a TypeError; otherwise the
strategy is constructed on the given options. This call happens at
`saml.service.ts` line 103, outside the try/catch of
`validateSAMLResponse`, so its throw is not caught there. -/
def newSAMLResult (opts : SAMLStrategyOptions) : Except String SAMLStrategyOptions :=
  if opts.idpCert = "" then Except.error "idpCert is required"
  else Except.ok opts

/-- Outcome of the third-party call
`saml.validatePostResponseAsync({SAMLResponse})`: the promise either rejects
(`throws`, e.g. on a failed signature check) or resolves with a result whose
profile may be absent (`ret none` covers `!result || !result.profile`). -/
inductive LibResult
  | throws (msg : String)
  | ret (profile : Option RawProfile)

/-- The library's behaviour as an oracle: which outcome it produces for a
given strategy configuration and response body. -/
def LibOracle : Type :=
  SAMLStrategyOptions → String → LibResult

/-- `validateSAMLResponse` from `saml.service.ts` (lines 100–135): the
strategy construction at line 103 runs before (outside) the try block, so
a constructor throw escapes the function (`Except.error`); inside the try,
a missing result or profile and every thrown validation error become a
`Failure` with code `SAML_RESPONSE_INVALID`, and otherwise the profile is
parsed into a user and returned as `Success`. -/
def validateSAMLResponse (lib : LibOracle) (env : Env) (samlResponse : String) :
    Except String SAMLAuthResult :=
  match newSAMLResult (createSAMLStrategy env) with
  | .error e => .error e
  | .ok saml =>
    .ok (match lib saml samlResponse with
      | .throws msg =>
        { success := false
          error := some msg
          errorCode := some .SAML_RESPONSE_INVALID }
      | .ret none =>
        { success := false
          error := some "Invalid SAML response: missing profile"
          errorCode := some .SAML_RESPONSE_INVALID }
      | .ret (some rawProfile) =>
        { success := true
          user := some (createSAMLUser (parseSAMLProfile rawProfile)) })

/-- The well-formedness a locally recovered validation outcome satisfies:
no escaped exception, and the returned value is either a Success with a
user or a Failure with both a message and the `SAML_RESPONSE_INVALID`
code. -/
def recoveredLocally : Except String SAMLAuthResult → Prop
  | .error _ => False
  | .ok r =>
    (r.success = true ∧ r.user.isSome = true ∧ r.error = none ∧ r.errorCode = none) ∨
    (r.success = false ∧ r.user = none ∧ r.error.isSome = true ∧
      r.errorCode = some SAMLErrorCode.SAML_RESPONSE_INVALID)

/-- `processSAMLCallback` from `apps/portal/src/server/auth/saml.ts`
(lines 36–68): a missing or empty `SAMLResponse` is rejected with
`SAML_RESPONSE_INVALID` before validation; otherwise the result of
`validateSAMLResponse` is returned unchanged, and anything thrown out of it
(the constructor TypeError included) is caught by the surrounding try/catch
and turned into a `SAML_RESPONSE_INVALID` Failure carrying the message. -/
def processSAMLCallback (lib : LibOracle) (env : Env)
    (samlResponse : Option String) : SAMLAuthResult :=
  if (samlResponse.getD "") = "" then
    { success := false
      error := some "Missing SAML response"
      errorCode := some .SAML_RESPONSE_INVALID }
  else
    match validateSAMLResponse lib env (samlResponse.getD "") with
    | .ok result => result
    | .error e =>
      { success := false
        error := some e
        errorCode := some .SAML_RESPONSE_INVALID }

/-- A redirect-binding URL, kept structured: the target base URL and the
decoded query parameters in order. -/
structure BuiltUrl where
  base : String
  params : List (String × String)

/-- Modelled from the spec: the URL construction performed by the
third-party library call `saml.getAuthorizeUrlAsync(relayState, ...)`,
which is not part of this repository. Spec §4.2: the request is encoded per
the redirect binding and targets `entryPoint`, and `RelayState` is appended
as a query parameter; the encoded AuthnRequest payload is abstracted as the
`samlRequest` argument. -/
def getAuthorizeUrl (saml : SAMLStrategyOptions) (samlRequest relayState : String) :
    BuiltUrl :=
  { base := saml.entryPoint
    params := [("SAMLRequest", samlRequest), ("RelayState", relayState)] }

/-- `generateAuthUrl` from `saml.service.ts` (lines 83–92): the strategy is
built from the environment and the library is called with
`relayState || '/'` (an absent or empty relay state becomes `"/"`). -/
def generateAuthUrl (env : Env) (samlRequest : String) (relayState : Option String) :
    BuiltUrl :=
  let saml := createSAMLStrategy env
  getAuthorizeUrl saml samlRequest (jsOr (relayState.getD "") "/")

/-- Spec §4.4's field resolver: take the first non-empty value of an
ordered candidate list. -/
def firstNonEmpty : List String → String
  | [] => ""
  | v :: rest => if v = "" then firstNonEmpty rest else v

/-- Spec §4.4: resolve a target field from an ordered list of source keys,
taking the first non-empty match. -/
def resolveField (raw : RawProfile) (keys : List String) : String :=
  firstNonEmpty (keys.map (attrStr raw))

/-- A raw profile carrying only a `nameID` and no attributes, as in the
attribute-starved example of spec §8. -/
def raw0 : RawProfile :=
  { nameID := "jdoe@ucsc.edu" }

/-- An environment with no SAML variables set (every field defaulted). -/
def emptyEnv : Env :=
  {}

/-- A production environment with a certificate configured. -/
def prodEnv : Env :=
  { NODE_ENV := some "production", SAML_IDP_CERT := some "dGVzdGNlcnQ=" }

/-- A production environment with no certificate and no endpoint variables
configured. -/
def prodEnvNoCert : Env :=
  { NODE_ENV := some "production" }

/-- A library behaviour in which validation always rejects, as it does for
a response whose XML signature does not verify. -/
def sigFailOracle : LibOracle :=
  fun _ _ => .throws "Invalid signature"

/-- A library behaviour in which validation always resolves with the
profile `raw0`. -/
def respOracle : LibOracle :=
  fun _ _ => .ret (some raw0)

end UcscPortal

namespace UcscPortal

theorem listContainsSub_subset (pat : List Char) :
    ∀ l, listContainsSub pat l = true → ∀ x ∈ pat, x ∈ l := by
  intro l
  induction l with
  | nil =>
    intro h x hx
    have hp : pat <+: ([] : List Char) := List.isPrefixOf_iff_prefix.mp h
    exact hp.subset hx
  | cons c rest ih =>
    intro h x hx
    simp only [listContainsSub, Bool.or_eq_true] at h
    rcases h with h | h
    · exact (List.isPrefixOf_iff_prefix.mp h).subset hx
    · exact List.mem_cons_of_mem _ (ih h x hx)

theorem stripJsSpace_all_nonspace (t : String) :
    ((stripJsSpace t).toList.all (fun c => !isJsSpace c)) = true := by
  rw [List.all_eq_true]
  intro c hc
  have hm : c ∈ t.toList.filter (fun c => !isJsSpace c) := hc
  have := List.of_mem_filter hm
  simpa using this

theorem strContainsSub_of_stripJsSpace (t pat : String) (hpat : ' ' ∈ pat.toList) :
    strContainsSub (stripJsSpace t) pat = false := by
  cases h : strContainsSub (stripJsSpace t) pat with
  | false => rfl
  | true =>
    exfalso
    have hsub := listContainsSub_subset pat.toList (stripJsSpace t).toList h ' ' hpat
    have hmem : ' ' ∈ t.toList.filter (fun c => !isJsSpace c) := hsub
    have := List.of_mem_filter hmem
    simp [isJsSpace] at this

theorem collectRoles_eq_filterMap (l : List String) :
    collectRoles l = l.filterMap specRoleForAff := by
  induction l with
  | nil => rfl
  | cons a rest ih =>
    simp only [collectRoles, List.filterMap_cons, specRoleForAff, ih]
    split_ifs <;> rfl

theorem jsOr_eq_firstNonEmpty2 (a b : String) :
    jsOr a b = firstNonEmpty [a, b] := by
  simp only [jsOr, firstNonEmpty]
  split_ifs <;> simp_all

theorem jsOr_eq_firstNonEmpty3 (a b c : String) :
    jsOr a (jsOr b c) = firstNonEmpty [a, b, c] := by
  by_cases ha : a = "" <;> by_cases hb : b = "" <;> by_cases hc : c = "" <;>
    simp [jsOr, firstNonEmpty, ha, hb, hc]

theorem append_ucsc_ne_empty (s : String) : s ++ "@ucsc.edu" ≠ "" := by
  intro h
  have hl := congrArg String.length h
  rw [String.length_append] at hl
  have h9 : ("@ucsc.edu" : String).length = 9 := rfl
  have h0 : ("" : String).length = 0 := rfl
  rw [h9, h0] at hl
  omega

/-- C1 counterexample: in a production configuration (both signature
enforcement flags on), a response for which the library signature check
throws is reported with errorCode `SAML_RESPONSE_INVALID`, not
`SAML_SIGNATURE_INVALID`: the catch-all of `validateSAMLResponse` maps
every validation exception to `SAML_RESPONSE_INVALID`. -/
theorem validateSAMLResponse_sig_failure_counterexample :
    (createSAMLStrategy prodEnv).wantAssertionsSigned = true ∧
    (createSAMLStrategy prodEnv).wantAuthnResponseSigned = true ∧
    validateSAMLResponse sigFailOracle prodEnv "tampered" =
      Except.ok
        { success := false, user := none, error := some "Invalid signature",
          errorCode := some SAMLErrorCode.SAML_RESPONSE_INVALID } ∧
    some SAMLErrorCode.SAML_RESPONSE_INVALID ≠
      some SAMLErrorCode.SAML_SIGNATURE_INVALID :=
  ⟨by decide, by decide, rfl, by decide⟩

/-- C1 amended: whenever the strategy constructor accepts the
configuration (non-empty normalized certificate) and the library
validation throws (which includes a failed signature check under
enforcement), `validateSAMLResponse` returns a Failure whose errorCode is
`SAML_RESPONSE_INVALID` and whose message is the thrown message. -/
theorem validateSAMLResponse_throw_gives_response_invalid
    (lib : LibOracle) (env : Env) (samlResponse msg : String)
    (hcert : (createSAMLStrategy env).idpCert ≠ "")
    (h : lib (createSAMLStrategy env) samlResponse = .throws msg) :
    validateSAMLResponse lib env samlResponse =
      Except.ok
        { success := false, user := none, error := some msg,
          errorCode := some SAMLErrorCode.SAML_RESPONSE_INVALID } := by
  simp [validateSAMLResponse, newSAMLResult, hcert, h]

/-- C1 amended claim instantiated on a concrete signature-failure outcome
in a production environment with a certificate configured. -/
theorem validateSAMLResponse_throw_gives_response_invalid_witness :
    (createSAMLStrategy prodEnv).idpCert ≠ "" ∧
    sigFailOracle (createSAMLStrategy prodEnv) "tampered" = .throws "Invalid signature" ∧
    validateSAMLResponse sigFailOracle prodEnv "tampered" =
      Except.ok
        { success := false, user := none, error := some "Invalid signature",
          errorCode := some SAMLErrorCode.SAML_RESPONSE_INVALID } :=
  ⟨by decide, rfl,
   validateSAMLResponse_throw_gives_response_invalid sigFailOracle prodEnv
     "tampered" "Invalid signature" (by decide) rfl⟩

/-- C2: `mapAffiliationToRoles` coincides with the reference mapper of the
spec on every input (after coercing the `string | string[] | undefined`
argument to its affiliation list), and the three concrete examples hold:
`[] ↦ [student]`, `["member","faculty"] ↦ [instructor]`,
`["staff","student"] ↦ [staff, student]`. -/
theorem mapAffiliationToRoles_matches_spec :
    (∀ arg : StrOrList,
      mapAffiliationToRoles arg = mapAffiliationsToRolesSpec arg.toAffList) ∧
    mapAffiliationToRoles (.list []) = [Role.student] ∧
    mapAffiliationToRoles (.list ["member", "faculty"]) = [Role.instructor] ∧
    mapAffiliationToRoles (.list ["staff", "student"]) = [Role.staff, Role.student] := by
  refine ⟨?_, by decide, by decide, by decide⟩
  intro arg
  cases arg with
  | absent => decide
  | str s =>
    by_cases hs : s = ""
    · subst hs; decide
    · simp [mapAffiliationToRoles, mapAffiliationsToRolesSpec, StrOrList.toAffList,
        StrOrList.isFalsy, hs, collectRoles_eq_filterMap]
  | list l =>
    simp [mapAffiliationToRoles, mapAffiliationsToRolesSpec, StrOrList.toAffList,
      StrOrList.isFalsy, collectRoles_eq_filterMap]

/-- C3 counterexample: for the raw profile containing only
`nameID = "jdoe@ucsc.edu"`, the resolved email is empty, so the local-part
fallback yields the empty string and the name falls through to the nameID:
the displayed name is `"jdoe@ucsc.edu"`, not `"jdoe"` as the claim states. -/
theorem createSAMLUser_nameID_only_counterexample :
    (createSAMLUser (parseSAMLProfile raw0)).name = "jdoe@ucsc.edu" ∧
    (createSAMLUser (parseSAMLProfile raw0)).name ≠ "jdoe" :=
  ⟨by decide, by decide⟩

/-- C3 amended: when the resolved displayName is empty the name is derived
in order (non-empty first and last name joined by a space, then the local
part of the email before the at sign, then the nameID); and for the raw
profile containing only `nameID = "jdoe@ucsc.edu"` the normalized user has
id `"jdoe@ucsc.edu"`, name `"jdoe@ucsc.edu"` (the email is empty, so the
local-part fallback is empty and the nameID is used) and roles
`[student]`. -/
theorem createSAMLUser_name_fallback_order :
    (∀ p : SAMLProfile, p.displayName = "" →
      (createSAMLUser p).name =
        (if joinNames p.firstName p.lastName ≠ "" then
           joinNames p.firstName p.lastName
         else if localPart p.email ≠ "" then
           localPart p.email
         else p.nameID)) ∧
    (createSAMLUser (parseSAMLProfile raw0)).id = "jdoe@ucsc.edu" ∧
    (createSAMLUser (parseSAMLProfile raw0)).name = "jdoe@ucsc.edu" ∧
    (createSAMLUser (parseSAMLProfile raw0)).roles = [Role.student] := by
  refine ⟨?_, by decide, by decide, by decide⟩
  intro p hp
  show jsOr p.displayName
      (jsOr (joinNames p.firstName p.lastName)
        (jsOr (localPart p.email) p.nameID)) = _
  rw [hp]
  simp only [jsOr]
  split_ifs <;> simp_all

/-- C3 amended claim instantiated at the profile parsed from `raw0`, whose
displayName resolves empty. -/
theorem createSAMLUser_name_fallback_order_witness :
    (parseSAMLProfile raw0).displayName = "" ∧
    (createSAMLUser (parseSAMLProfile raw0)).name =
      (if joinNames (parseSAMLProfile raw0).firstName (parseSAMLProfile raw0).lastName ≠ "" then
         joinNames (parseSAMLProfile raw0).firstName (parseSAMLProfile raw0).lastName
       else if localPart (parseSAMLProfile raw0).email ≠ "" then
         localPart (parseSAMLProfile raw0).email
       else (parseSAMLProfile raw0).nameID) :=
  ⟨by decide, createSAMLUser_name_fallback_order.1 (parseSAMLProfile raw0) (by decide)⟩

/-- C4: each normalized field of `parseSAMLProfile` is the first non-empty
value of its ordered candidate key list, and the user id is the `uid`-chain
resolution with fallback to `nameID` when it is empty. -/
theorem parseSAMLProfile_first_nonempty (raw : RawProfile) :
    (parseSAMLProfile raw).email =
      resolveField raw ["email", "urn:oid:0.9.2342.19200300.100.1.3", "mail"] ∧
    (parseSAMLProfile raw).displayName =
      resolveField raw ["displayName", "urn:oid:2.16.840.1.113730.3.1.241", "cn"] ∧
    (parseSAMLProfile raw).firstName =
      resolveField raw ["firstName", "givenName", "urn:oid:2.5.4.42"] ∧
    (parseSAMLProfile raw).lastName =
      resolveField raw ["lastName", "sn", "urn:oid:2.5.4.4"] ∧
    (createSAMLUser (parseSAMLProfile raw)).id =
      (if resolveField raw ["uid", "urn:oid:0.9.2342.19200300.100.1.1"] = ""
       then raw.nameID
       else resolveField raw ["uid", "urn:oid:0.9.2342.19200300.100.1.1"]) := by
  refine ⟨?_, ?_, ?_, ?_, ?_⟩
  · exact jsOr_eq_firstNonEmpty3 _ _ _
  · exact jsOr_eq_firstNonEmpty3 _ _ _
  · exact jsOr_eq_firstNonEmpty3 _ _ _
  · exact jsOr_eq_firstNonEmpty3 _ _ _
  · show jsOr (parseSAMLProfile raw).uid raw.nameID = _
    rw [show (parseSAMLProfile raw).uid =
        resolveField raw ["uid", "urn:oid:0.9.2342.19200300.100.1.1"] from
      jsOr_eq_firstNonEmpty2 _ _]
    rfl

/-- C5 counterexample: in an environment with no certificate configured
(the repository default, `DEFAULT_CONFIG.cert = ''`), the `new SAML`
constructor at `saml.service.ts` line 103 runs outside the try/catch and
its TypeError escapes `validateSAMLResponse`: the call evaluates to an
escaped exception, not to a `SAMLAuthResult` Failure. -/
theorem validateSAMLResponse_escape_counterexample :
    validateSAMLResponse sigFailOracle emptyEnv "resp" =
      Except.error "idpCert is required" ∧
    ¬ recoveredLocally (validateSAMLResponse sigFailOracle emptyEnv "resp") :=
  ⟨rfl, fun h => h⟩

/-- C5 amended: when the strategy constructor accepts the configuration
(non-empty normalized certificate), `validateSAMLResponse` recovers every
validation fault locally: it returns a `SAMLAuthResult` that is either a
Success with a user or a Failure with both a message and the error code
`SAML_RESPONSE_INVALID`; but when the normalized certificate is empty, the
constructor — which runs outside the try/catch — throws
`idpCert is required` and the exception escapes the boundary. -/
theorem validateSAMLResponse_escape_boundary (lib : LibOracle) (env : Env)
    (samlResponse : String) :
    ((createSAMLStrategy env).idpCert = "" →
      validateSAMLResponse lib env samlResponse =
        Except.error "idpCert is required") ∧
    ((createSAMLStrategy env).idpCert ≠ "" →
      recoveredLocally (validateSAMLResponse lib env samlResponse)) := by
  constructor
  · intro hc
    simp [validateSAMLResponse, newSAMLResult, hc]
  · intro hc
    have hok : newSAMLResult (createSAMLStrategy env) =
        Except.ok (createSAMLStrategy env) := by
      simp [newSAMLResult, hc]
    rcases hlib : lib (createSAMLStrategy env) samlResponse with msg | p
    · simp [validateSAMLResponse, hok, hlib, recoveredLocally]
    · cases p with
      | none => simp [validateSAMLResponse, hok, hlib, recoveredLocally]
      | some raw => simp [validateSAMLResponse, hok, hlib, recoveredLocally]

/-- C5 amended claim instantiated twice: in the cert-less environment the
exception escapes, and in the production environment with a certificate
the fault is recovered locally. -/
theorem validateSAMLResponse_escape_boundary_witness :
    ((createSAMLStrategy emptyEnv).idpCert = "" ∧
     validateSAMLResponse sigFailOracle emptyEnv "resp2" =
       Except.error "idpCert is required") ∧
    ((createSAMLStrategy prodEnv).idpCert ≠ "" ∧
     recoveredLocally (validateSAMLResponse sigFailOracle prodEnv "resp2")) :=
  ⟨⟨by decide,
    (validateSAMLResponse_escape_boundary sigFailOracle emptyEnv "resp2").1 (by decide)⟩,
   ⟨by decide,
    (validateSAMLResponse_escape_boundary sigFailOracle prodEnv "resp2").2 (by decide)⟩⟩

/-- C6: a missing or empty `SAMLResponse` makes `processSAMLCallback`
return the `SAML_RESPONSE_INVALID` Failure (and, being a total function of
its inputs, it throws nothing). -/
theorem processSAMLCallback_missing_response (lib : LibOracle) (env : Env)
    (samlResponse : Option String)
    (h : samlResponse = none ∨ samlResponse = some "") :
    processSAMLCallback lib env samlResponse =
      { success := false, user := none, error := some "Missing SAML response",
        errorCode := some SAMLErrorCode.SAML_RESPONSE_INVALID } := by
  rcases h with h | h <;> subst h <;> rfl

/-- C6 claim instantiated at an absent `SAMLResponse` field. -/
theorem processSAMLCallback_missing_response_witness :
    ((none : Option String) = none ∨ (none : Option String) = some "") ∧
    processSAMLCallback sigFailOracle emptyEnv none =
      { success := false, user := none, error := some "Missing SAML response",
        errorCode := some SAMLErrorCode.SAML_RESPONSE_INVALID } :=
  ⟨Or.inl rfl,
   processSAMLCallback_missing_response sigFailOracle emptyEnv none (Or.inl rfl)⟩

/-- C7 counterexample: with `SAML_ENTRY_POINT`, `SAML_ISSUER`,
`SAML_CALLBACK_URL` and `SAML_IDP_CERT` all unset and
`NODE_ENV=production`, `getSAMLConfig` does not fail: it returns a full
configuration built from `DEFAULT_CONFIG`, with an empty certificate and
both signature-enforcement flags on — the misconfiguration is served, not
reported at startup. -/
theorem getSAMLConfig_no_failfast_counterexample :
    getSAMLConfig prodEnvNoCert =
      { entryPoint := "http://localhost:8080/simplesaml/saml2/idp/SSOService.php",
        issuer := "http://localhost:3000",
        callbackUrl := "http://localhost:3000/api/auth/saml/callback",
        cert := "",
        wantAssertionsSigned := true,
        wantAuthnResponseSigned := true } := by
  rfl

/-- C7 amended: `getSAMLConfig` never fails; a missing `entryPoint`,
`issuer` or `callbackUrl` silently falls back to the `DEFAULT_CONFIG`
value, the certificate falls back to the empty string, and in production
the enforcement flags are on regardless of the certificate, deferring the
empty-certificate misconfiguration to request time. -/
theorem getSAMLConfig_defaults (env : Env)
    (hep : env.SAML_ENTRY_POINT = none)
    (hiss : env.SAML_ISSUER = none)
    (hcb : env.SAML_CALLBACK_URL = none)
    (hcert : env.SAML_IDP_CERT = none)
    (hprod : env.NODE_ENV = some "production") :
    (getSAMLConfig env).entryPoint = DEFAULT_CONFIG.entryPoint ∧
    (getSAMLConfig env).issuer = DEFAULT_CONFIG.issuer ∧
    (getSAMLConfig env).callbackUrl = DEFAULT_CONFIG.callbackUrl ∧
    (getSAMLConfig env).cert = "" ∧
    (getSAMLConfig env).wantAssertionsSigned = true ∧
    (getSAMLConfig env).wantAuthnResponseSigned = true := by
  simp [getSAMLConfig, envOr, jsOr, hep, hiss, hcb, hcert, hprod, DEFAULT_CONFIG]

/-- C7 amended claim instantiated at the bare production environment. -/
theorem getSAMLConfig_defaults_witness :
    (prodEnvNoCert.SAML_ENTRY_POINT = none ∧
     prodEnvNoCert.SAML_ISSUER = none ∧
     prodEnvNoCert.SAML_CALLBACK_URL = none ∧
     prodEnvNoCert.SAML_IDP_CERT = none ∧
     prodEnvNoCert.NODE_ENV = some "production") ∧
    ((getSAMLConfig prodEnvNoCert).entryPoint = DEFAULT_CONFIG.entryPoint ∧
     (getSAMLConfig prodEnvNoCert).issuer = DEFAULT_CONFIG.issuer ∧
     (getSAMLConfig prodEnvNoCert).callbackUrl = DEFAULT_CONFIG.callbackUrl ∧
     (getSAMLConfig prodEnvNoCert).cert = "" ∧
     (getSAMLConfig prodEnvNoCert).wantAssertionsSigned = true ∧
     (getSAMLConfig prodEnvNoCert).wantAuthnResponseSigned = true) :=
  ⟨⟨rfl, rfl, rfl, rfl, rfl⟩,
   getSAMLConfig_defaults prodEnvNoCert rfl rfl rfl rfl rfl⟩

/-- C8: for every environment, the certificate handed to the SAML strategy
(used by both the request builder and the response validator, which both
call `createSAMLStrategy`) is exactly `normalizeCert` of the configured
certificate, contains no whitespace character, and contains neither PEM
armor marker as a substring. -/
theorem createSAMLStrategy_cert_normalized (env : Env) :
    (createSAMLStrategy env).idpCert = normalizeCert (getSAMLConfig env).cert ∧
    ((createSAMLStrategy env).idpCert.toList.all (fun c => !isJsSpace c)) = true ∧
    strContainsSub (createSAMLStrategy env).idpCert beginMarker = false ∧
    strContainsSub (createSAMLStrategy env).idpCert endMarker = false := by
  refine ⟨rfl, ?_, ?_, ?_⟩
  · exact stripJsSpace_all_nonspace _
  · exact strContainsSub_of_stripJsSpace _ _ (by decide)
  · exact strContainsSub_of_stripJsSpace _ _ (by decide)

/-- C9 counterexample: the relay state `""` is provided but is not passed
through unmodified: `relayState || '/'` rewrites it, so the produced URL
carries `RelayState = "/"`. -/
theorem generateAuthUrl_empty_relay_counterexample :
    (generateAuthUrl emptyEnv "encodedRequest" (some "")).params =
      [("SAMLRequest", "encodedRequest"), ("RelayState", "/")] ∧
    ("/" : String) ≠ "" :=
  ⟨by decide, by decide⟩

/-- C9 amended: for every non-empty provided relay state the produced URL
targets the configured entryPoint and carries a `RelayState` parameter
equal to the provided string unmodified; an empty or absent relay state is
replaced by `"/"`. -/
theorem generateAuthUrl_relay_passthrough (env : Env) (samlRequest s : String)
    (h : s ≠ "") :
    (generateAuthUrl env samlRequest (some s)).base = (getSAMLConfig env).entryPoint ∧
    ("RelayState", s) ∈ (generateAuthUrl env samlRequest (some s)).params ∧
    (generateAuthUrl env samlRequest none).params =
      [("SAMLRequest", samlRequest), ("RelayState", "/")] := by
  refine ⟨rfl, ?_, rfl⟩
  simp [generateAuthUrl, getAuthorizeUrl, jsOr, h]

/-- C9 amended claim instantiated at the relay state of spec §8,
`"/dashboard"`. -/
theorem generateAuthUrl_relay_passthrough_witness :
    ("/dashboard" : String) ≠ "" ∧
    ((generateAuthUrl emptyEnv "encodedRequest" (some "/dashboard")).base =
       (getSAMLConfig emptyEnv).entryPoint ∧
     ("RelayState", "/dashboard") ∈
       (generateAuthUrl emptyEnv "encodedRequest" (some "/dashboard")).params ∧
     (generateAuthUrl emptyEnv "encodedRequest" none).params =
       [("SAMLRequest", "encodedRequest"), ("RelayState", "/")]) :=
  ⟨by decide,
   generateAuthUrl_relay_passthrough emptyEnv "encodedRequest" "/dashboard" (by decide)⟩

/-- C10: the email of a user returned by a successful validation is never
empty; when no email attribute resolved from the raw profile, it is the
nameID with `"@ucsc.edu"` appended (even when the nameID is itself an email
address). -/
theorem validateSAMLResponse_email_nonempty (lib : LibOracle) (env : Env)
    (samlResponse : String) (r : SAMLAuthResult) (u : SAMLUser)
    (hr : validateSAMLResponse lib env samlResponse = Except.ok r)
    (hu : r.user = some u) :
    u.email ≠ "" ∧
    (u.samlProfile.email = "" → u.email = u.samlProfile.nameID ++ "@ucsc.edu") := by
  rcases hok : newSAMLResult (createSAMLStrategy env) with e | saml <;>
    simp only [validateSAMLResponse, hok] at hr
  · exact absurd hr (fun hcon => Except.noConfusion hcon)
  · rcases hlib : lib saml samlResponse with msg | p
    · rw [hlib] at hr
      obtain rfl := Except.ok.inj hr
      exact Option.noConfusion hu
    · cases p with
      | none =>
        rw [hlib] at hr
        obtain rfl := Except.ok.inj hr
        exact Option.noConfusion hu
      | some raw =>
        rw [hlib] at hr
        obtain rfl := Except.ok.inj hr
        obtain rfl := Option.some.inj hu
        have hsp : (createSAMLUser (parseSAMLProfile raw)).samlProfile =
            parseSAMLProfile raw := rfl
        have he : (createSAMLUser (parseSAMLProfile raw)).email =
            jsOr (parseSAMLProfile raw).email
              ((parseSAMLProfile raw).nameID ++ "@ucsc.edu") := rfl
        rw [hsp, he]
        by_cases hp : (parseSAMLProfile raw).email = ""
        · rw [jsOr, if_pos hp]
          exact ⟨append_ucsc_ne_empty _, fun _ => rfl⟩
        · rw [jsOr, if_neg hp]
          exact ⟨hp, fun hcon => absurd hcon hp⟩

/-- C10 claim instantiated at a successful validation of the
nameID-only profile `raw0` in the production environment, whose
synthesized email is `"jdoe@ucsc.edu@ucsc.edu"`. -/
theorem validateSAMLResponse_email_nonempty_witness :
    validateSAMLResponse respOracle prodEnv "resp" =
      Except.ok
        { success := true,
          user := some (createSAMLUser (parseSAMLProfile raw0)) } ∧
    (createSAMLUser (parseSAMLProfile raw0)).email ≠ "" ∧
    (createSAMLUser (parseSAMLProfile raw0)).email = "jdoe@ucsc.edu@ucsc.edu" :=
  ⟨rfl,
   (validateSAMLResponse_email_nonempty respOracle prodEnv "resp"
     { success := true, user := some (createSAMLUser (parseSAMLProfile raw0)) }
     (createSAMLUser (parseSAMLProfile raw0)) rfl rfl).1,
   by decide⟩

end UcscPortal
